import Mathlib

/-!
Verification of `ProjectExtentsEditingExample.ts`
(`src/test-apps/display-test-app/src/frontend/ProjectExtentsEditingExample.ts`).

The file is a demo UI panel with five async button handlers that call into
the viewer SDK.  We embed it shallowly:

* `Vector3d` / `Range3d` / `Transform` carry rational coordinates; the
  source's floating-point numbers never do anything here beyond exact
  arithmetic on `max`, `*2` and negation, so `ℚ` is a faithful carrier.
* A handler becomes a pure function from the panel state and an external
  world to a new panel state, a new world, and a trace of the external
  calls it performed (`Effect`).  Suspension points of the original async
  code are sequential awaits with no local interleaving, so straight-line
  state passing captures them.
* Euclidean magnitude is characterised without square roots by the
  decidable predicate `hasMagnitude v m` (`0 ≤ m` and `m^2` equals the sum
  of squared components), which agrees with `sqrt` on every rational
  magnitude the claims mention.
-/

namespace ProjectExtents

/-- `Vector3d` of `@itwin/core-geometry`, restricted to the operations this
file uses, with exact rational coordinates. -/
structure Vector3d where
  x : ℚ
  y : ℚ
  z : ℚ
deriving DecidableEq, Repr

/-- `Vector3d.create(x, y, z)`. -/
def Vector3d.create (x y z : ℚ) : Vector3d := ⟨x, y, z⟩

/-- `Vector3d.negate()`: componentwise negation. -/
def Vector3d.negate (v : Vector3d) : Vector3d := ⟨-v.x, -v.y, -v.z⟩

/-- Squared Euclidean magnitude of a vector. -/
def Vector3d.magnitudeSq (v : Vector3d) : ℚ := v.x ^ 2 + v.y ^ 2 + v.z ^ 2

/-- `v` has Euclidean magnitude `m`: the square-root-free characterisation
`0 ≤ m ∧ m^2 = |v|^2`, which pins down `sqrt (x^2+y^2+z^2)` exactly
whenever the magnitude is rational. -/
def hasMagnitude (v : Vector3d) (m : ℚ) : Prop :=
  0 ≤ m ∧ m ^ 2 = v.magnitudeSq

instance (v : Vector3d) (m : ℚ) : Decidable (hasMagnitude v m) := by
  unfold hasMagnitude; infer_instance

/-- `const defaultOffset = Vector3d.create(50_000, 0, 0)`. -/
def defaultOffset : Vector3d := Vector3d.create 50000 0 0

/-- The value of `defaultOffset.magnitude()`: `sqrt (50000^2) = 50000`,
justified by `defaultOffset_magnitude` below. -/
def defaultOffsetMagnitude : ℚ := 50000

/-- `Range3d` of `@itwin/core-geometry`, as the low/high corner
coordinates this file reads through `xLength`/`yLength`/`zLength`. -/
structure Range3d where
  lowX : ℚ
  lowY : ℚ
  lowZ : ℚ
  highX : ℚ
  highY : ℚ
  highZ : ℚ
deriving DecidableEq, Repr

/-- `Range3d.xLength()`: extent of the range along x. -/
def Range3d.xLength (r : Range3d) : ℚ := r.highX - r.lowX

/-- `Range3d.yLength()`: extent of the range along y. -/
def Range3d.yLength (r : Range3d) : ℚ := r.highY - r.lowY

/-- `Range3d.zLength()`: extent of the range along z. -/
def Range3d.zLength (r : Range3d) : ℚ := r.highZ - r.lowZ

/-- The `length` local of `getRangeBasedOffset`:
`Math.max(extents.xLength(), extents.yLength(), extents.zLength())`. -/
def maxDim (extents : Range3d) : ℚ :=
  max (max (extents.xLength) (extents.yLength)) (extents.zLength)

/-- `getRangeBasedOffset(extents)`: if the largest extent dimension is not
positive, a clone of `defaultOffset`; otherwise an x-axis vector of length
`Math.max(length * 2, defaultOffset.magnitude())`. -/
def getRangeBasedOffset (extents : Range3d) : Vector3d :=
  if maxDim extents ≤ 0 then
    defaultOffset
  else
    Vector3d.create (max (maxDim extents * 2) defaultOffsetMagnitude) 0 0

/-- `Transform.createTranslation(translation)`: only the translation part
is ever used by this file. -/
structure Transform where
  translation : Vector3d
deriving DecidableEq, Repr

/-- `Transform.createTranslation`. -/
def Transform.createTranslation (v : Vector3d) : Transform := ⟨v⟩

/-- One external call performed by a handler, in program order. -/
inductive Effect where
  /-- `imodel.enterEditingScope()` -/
  | enterScope : Effect
  /-- `imodel.editingScope.exit()` -/
  | exitScope : Effect
  /-- `transformElements(imodel, ids, transform)` -/
  | transformEls (ids : List String) (t : Transform) : Effect
  /-- `imodel.saveChanges(description)` -/
  | saveChanges (description : String) : Effect
  /-- `IModelApp.viewManager.refreshForModifiedModels(modelIds)` -/
  | refreshTiles (modelIds : List String) : Effect
deriving DecidableEq, Repr

/-- One row returned by the element-id query: `row.id` when present, which
the source keeps only when it is a string. -/
structure QueryRow where
  id : Option String
deriving DecidableEq, Repr

/-- The external world the handlers read and mutate:
whether `this._vp.iModel.isBriefcaseConnection()` holds, whether
`imodel.editingScope` is defined, `imodel.projectExtents`, and the rows the
element query returns for each model id (the SQL `LIMIT 50` is applied by
the query engine, so the row list is what the reader yields). -/
structure World where
  isBriefcase : Bool
  editingScope : Bool
  projectExtents : Range3d
  queryRows : String → List QueryRow

/-- `getSampleElementIds(imodel, modelId)`: collect `row.id` for each row
whose `id` is a string. -/
def getSampleElementIds (w : World) (modelId : String) : List String :=
  (w.queryRows modelId).filterMap (·.id)

/-- The mutable state owned by the panel instance: the cached
`_lastOffset`, the status line text, and the model `<select>`'s `value`. -/
structure PanelState where
  lastOffset : Option Vector3d
  status : String
  modelSelectValue : String
deriving DecidableEq, Repr

/-- `this._modelSelect.value || undefined`: the empty string is falsy, so
an empty value yields `undefined`. -/
def PanelState.selectedModelId (p : PanelState) : Option String :=
  if p.modelSelectValue = "" then none else some p.modelSelectValue

/-- Modelled from the spec (DOM semantics of `HTMLSelectElement`, not in
`src/`): assigning `value` selects the matching option if one exists and
otherwise leaves no option selected, so the resulting `value` is the
assigned string when it is among the options and `""` otherwise. -/
def setSelectValue (options : List String) (v : String) : String :=
  if options.contains v then v else ""

/-- `populateModels()` as it affects `this._modelSelect.value`: the
options are rebuilt from the view's model ids (an option per model, its
`value` the model id; the first appended option becomes selected), then,
if the previously selected value was nonempty, it is re-assigned. -/
def populateModels (models : List String) (current : String) : String :=
  if current ≠ "" then setSelectValue models current
  else (models.head?).getD ""

/-- The result of running one handler. -/
structure HandlerResult where
  panel : PanelState
  world : World
  effects : List Effect

/-- `setStatus(message)`. -/
def setStatus (p : PanelState) (message : String) : PanelState :=
  { p with status := message }

/-- `getBriefcase()`: `some ()` exactly when the viewport's iModel is a
briefcase connection (the connection's own state lives in `World`). -/
def World.getBriefcase (w : World) : Option Unit :=
  if w.isBriefcase then some () else none

/-- `toggleEditingScope()`. -/
def toggleEditingScope (p : PanelState) (w : World) : HandlerResult :=
  match w.getBriefcase with
  | none =>
    ⟨setStatus p "Editing scope requires a writable briefcase.", w, []⟩
  | some _ =>
    let w2 : World := { w with editingScope := !w.editingScope }
    let effs : List Effect :=
      if w.editingScope then [Effect.exitScope] else [Effect.enterScope]
    let msg :=
      if w2.editingScope then "Editing scope is active." else "Editing scope ended."
    ⟨setStatus p msg, w2, effs⟩

/-- `getOffset(imodel)`. -/
def getOffset (w : World) : Vector3d :=
  getRangeBasedOffset w.projectExtents

/-- The scope-entry preamble of `moveSample`:
`if (!imodel.editingScope) { await imodel.enterEditingScope(); }` — the
world after it and the external calls it makes. -/
def scopeEntered (w : World) : World × List Effect :=
  if !w.editingScope then ({ w with editingScope := true }, [Effect.enterScope])
  else (w, [])

/-- `moveSample(outside)`. -/
def moveSample (outside : Bool) (p : PanelState) (w : World) : HandlerResult :=
  match w.getBriefcase, p.selectedModelId with
  | none, _ | _, none =>
    ⟨setStatus p "Select a model and ensure the iModel is writable.", w, []⟩
  | some _, some modelId =>
    let w2 := (scopeEntered w).1
    let enterEffs := (scopeEntered w).2
    let ids := getSampleElementIds w2 modelId
    if ids.length = 0 then
      ⟨setStatus p "No geometric elements were found in the selected model.", w2, enterEffs⟩
    else
      let offset := p.lastOffset.getD (getOffset w2)
      let translation := if outside then offset else offset.negate
      let p2 := { p with lastOffset := some offset }
      let msg :=
        if outside then "Moved sample geometry beyond the project extents while editing."
        else "Moved sample geometry back within the project extents without saving."
      ⟨setStatus p2 msg, w2,
        enterEffs ++ [Effect.transformEls ids (Transform.createTranslation translation)]⟩

/-- `saveAndRefresh()`. -/
def saveAndRefresh (p : PanelState) (w : World) : HandlerResult :=
  match w.getBriefcase, p.selectedModelId with
  | none, _ | _, none =>
    ⟨setStatus p "Select a model and ensure the iModel is writable.", w, []⟩
  | some _, some modelId =>
    ⟨setStatus p
      "Saved the briefcase and refreshed tiles. Geometry outside project extents will stop requesting tiles.",
      w,
      [Effect.saveChanges "Project extents tile example",
       Effect.refreshTiles [modelId]]⟩

/-- `requestTiles()`: note it checks only the selected model, not the
briefcase connection. -/
def requestTiles (p : PanelState) (w : World) : HandlerResult :=
  match p.selectedModelId with
  | none =>
    ⟨setStatus p "Select a model before requesting tiles.", w, []⟩
  | some modelId =>
    ⟨setStatus p "Requested tiles for the modified model without saving.", w,
      [Effect.refreshTiles [modelId]]⟩

/-- A vector lies on the x-axis: zero y and z components. -/
def Vector3d.onXAxis (v : Vector3d) : Prop := v.y = 0 ∧ v.z = 0

/-- The handler changed nothing of the panel state except possibly the
status text. -/
def onlyStatusChanged (p q : PanelState) : Prop :=
  q.lastOffset = p.lastOffset ∧ q.modelSelectValue = p.modelSelectValue

/-- Running handler `f` on `(p, w)` leaves the external world untouched,
performs no external call, and changes at most the panel's status text. -/
def inertRun (f : PanelState → World → HandlerResult) (p : PanelState) (w : World) : Prop :=
  (f p w).world = w ∧ (f p w).effects = [] ∧ onlyStatusChanged p (f p w).panel

/-! ## Helper lemmas -/

theorem scopeEntered_active (w : World) (h : w.editingScope = true) :
    scopeEntered w = (w, []) := by
  simp [scopeEntered, h]

theorem scopeEntered_inactive (w : World) (h : w.editingScope = false) :
    scopeEntered w = ({ w with editingScope := true }, [Effect.enterScope]) := by
  simp [scopeEntered, h]

theorem scopeEntered_snd (w : World) :
    (scopeEntered w).2 = [] ∨ (scopeEntered w).2 = [Effect.enterScope] := by
  unfold scopeEntered; split
  · exact Or.inr rfl
  · exact Or.inl rfl

theorem moveSample_eq_err (o : Bool) (p : PanelState) (w : World)
    (h : w.getBriefcase = none ∨ p.selectedModelId = none) :
    moveSample o p w =
      ⟨setStatus p "Select a model and ensure the iModel is writable.", w, []⟩ := by
  rcases h with h | h
  · simp [moveSample, h]
  · cases hb : w.getBriefcase <;> simp [moveSample, hb, h]

theorem moveSample_eq_empty (o : Bool) (p : PanelState) (w : World) (m : String)
    (hb : w.isBriefcase = true) (hm : p.selectedModelId = some m)
    (hq : getSampleElementIds (scopeEntered w).1 m = []) :
    moveSample o p w =
      ⟨setStatus p "No geometric elements were found in the selected model.",
       (scopeEntered w).1, (scopeEntered w).2⟩ := by
  simp [moveSample, World.getBriefcase, hb, hm, hq]

theorem moveSample_eq_success (o : Bool) (p : PanelState) (w : World) (m : String)
    (hb : w.isBriefcase = true) (hm : p.selectedModelId = some m)
    (hq : getSampleElementIds (scopeEntered w).1 m ≠ []) :
    moveSample o p w =
      ⟨setStatus { p with lastOffset := some (p.lastOffset.getD (getOffset (scopeEntered w).1)) }
         (if o then "Moved sample geometry beyond the project extents while editing."
          else "Moved sample geometry back within the project extents without saving."),
       (scopeEntered w).1,
       (scopeEntered w).2 ++
         [Effect.transformEls (getSampleElementIds (scopeEntered w).1 m)
           (Transform.createTranslation
             (if o then p.lastOffset.getD (getOffset (scopeEntered w).1)
              else (p.lastOffset.getD (getOffset (scopeEntered w).1)).negate))]⟩ := by
  have hl : ((getSampleElementIds (scopeEntered w).1 m).length = 0) = False := by
    simp [List.length_eq_zero, hq]
  cases o <;> simp [moveSample, World.getBriefcase, hb, hm, hl]

theorem moveSample_transform_mem (o : Bool) (p : PanelState) (w : World)
    (ids : List String) (t : Transform)
    (h : Effect.transformEls ids t ∈ (moveSample o p w).effects) :
    ∃ off : Vector3d,
      off = p.lastOffset.getD (getOffset (scopeEntered w).1) ∧
      t = Transform.createTranslation (if o then off else off.negate) ∧
      (moveSample o p w).panel.lastOffset = some off := by
  cases hb : w.isBriefcase
  · rw [moveSample_eq_err o p w (Or.inl (by simp [World.getBriefcase, hb]))] at h
    simp at h
  · cases hm : p.selectedModelId with
    | none =>
      rw [moveSample_eq_err o p w (Or.inr hm)] at h
      simp at h
    | some m =>
      by_cases hq : getSampleElementIds (scopeEntered w).1 m = []
      · rw [moveSample_eq_empty o p w m hb hm hq] at h
        rcases scopeEntered_snd w with h2 | h2 <;> rw [h2] at h <;> simp at h
      · rw [moveSample_eq_success o p w m hb hm hq] at h ⊢
        refine ⟨p.lastOffset.getD (getOffset (scopeEntered w).1), rfl, ?_, by simp [setStatus]⟩
        simp [List.mem_append] at h
        rcases h with h | h
        · rcases scopeEntered_snd w with h2 | h2 <;> rw [h2] at h <;> simp at h
        · exact h.2

/-- An x-axis vector with a nonnegative component has that component as
its magnitude. -/
theorem hasMagnitude_xAxis (s : ℚ) (hs : 0 ≤ s) :
    hasMagnitude (Vector3d.create s 0 0) s :=
  ⟨hs, by simp [Vector3d.magnitudeSq, Vector3d.create]⟩

/-- `defaultOffset.magnitude()` is `50000`, justifying the constant
`defaultOffsetMagnitude`. -/
theorem defaultOffset_magnitude : hasMagnitude defaultOffset defaultOffsetMagnitude :=
  hasMagnitude_xAxis 50000 (by norm_num)

/-- `0 ≤ max (maxDim e * 2) defaultOffsetMagnitude`. -/
theorem scale_nonneg (e : Range3d) :
    (0 : ℚ) ≤ max (maxDim e * 2) defaultOffsetMagnitude :=
  le_max_of_le_right (by norm_num [defaultOffsetMagnitude])

theorem saveAndRefresh_eq_err (p : PanelState) (w : World)
    (h : w.getBriefcase = none ∨ p.selectedModelId = none) :
    saveAndRefresh p w =
      ⟨setStatus p "Select a model and ensure the iModel is writable.", w, []⟩ := by
  rcases h with h | h
  · simp [saveAndRefresh, h]
  · cases hb : w.getBriefcase <;> simp [saveAndRefresh, hb, h]

theorem saveAndRefresh_eq_ok (p : PanelState) (w : World) (m : String)
    (hb : w.isBriefcase = true) (hm : p.selectedModelId = some m) :
    saveAndRefresh p w =
      ⟨setStatus p
        "Saved the briefcase and refreshed tiles. Geometry outside project extents will stop requesting tiles.",
       w,
       [Effect.saveChanges "Project extents tile example", Effect.refreshTiles [m]]⟩ := by
  simp [saveAndRefresh, World.getBriefcase, hb, hm]

theorem requestTiles_eq_none (p : PanelState) (w : World)
    (h : p.selectedModelId = none) :
    requestTiles p w = ⟨setStatus p "Select a model before requesting tiles.", w, []⟩ := by
  simp [requestTiles, h]

theorem requestTiles_eq_some (p : PanelState) (w : World) (m : String)
    (h : p.selectedModelId = some m) :
    requestTiles p w =
      ⟨setStatus p "Requested tiles for the modified model without saving.", w,
       [Effect.refreshTiles [m]]⟩ := by
  simp [requestTiles, h]

theorem negate_onXAxis (v : Vector3d) (h : v.onXAxis) : v.negate.onXAxis :=
  ⟨by simp [Vector3d.negate, h.1], by simp [Vector3d.negate, h.2]⟩

theorem getRangeBasedOffset_onXAxis (e : Range3d) :
    (getRangeBasedOffset e).onXAxis := by
  unfold getRangeBasedOffset
  split
  · exact ⟨rfl, rfl⟩
  · exact ⟨rfl, rfl⟩

/-- A `<select>` rebuilt from an empty model list has the empty value. -/
theorem populateModels_nil (current : String) : populateModels [] current = "" := by
  unfold populateModels setSelectValue
  split <;> simp

/-! ## Claims -/

/-- C1, as stated by the spec: whenever the largest extent dimension is
strictly positive, the offset magnitude is exactly twice it.  Refuted at
the concrete extents `[0,1]×[0,1]×[0,1]`: the largest dimension is `1 > 0`
but the computed offset is `(50000, 0, 0)`, of magnitude `50000 ≠ 2`. -/
theorem C1_counterexample :
    0 < maxDim ⟨0, 0, 0, 1, 1, 1⟩ ∧
    ¬ hasMagnitude (getRangeBasedOffset ⟨0, 0, 0, 1, 1, 1⟩)
        (2 * maxDim ⟨0, 0, 0, 1, 1, 1⟩) := by
  constructor
  · norm_num [maxDim, Range3d.xLength, Range3d.yLength, Range3d.zLength]
  · intro h
    have h2 := h.2
    norm_num [maxDim, Range3d.xLength, Range3d.yLength, Range3d.zLength,
      getRangeBasedOffset, defaultOffsetMagnitude, Vector3d.magnitudeSq,
      Vector3d.create] at h2

/-- C1 (amended): for every extents range whose largest dimension is
strictly positive, the offset computed by `getRangeBasedOffset` has
magnitude `max (2 * largest dimension) 50000` (twice the largest
dimension, but never below the fallback magnitude); when the largest
dimension is zero or negative, the magnitude equals the fallback magnitude
of the default offset `(50000, 0, 0)`. -/
theorem C1_offset_magnitude (e : Range3d) :
    (0 < maxDim e →
      hasMagnitude (getRangeBasedOffset e) (max (2 * maxDim e) defaultOffsetMagnitude)) ∧
    (maxDim e ≤ 0 → hasMagnitude (getRangeBasedOffset e) defaultOffsetMagnitude) := by
  constructor
  · intro h
    rw [getRangeBasedOffset, if_neg (not_le.mpr h), mul_comm (2 : ℚ) (maxDim e)]
    exact hasMagnitude_xAxis _ (scale_nonneg e)
  · intro h
    rw [getRangeBasedOffset, if_pos h]
    exact defaultOffset_magnitude

/-- C1 witness: both branches of `C1_offset_magnitude` at concrete
extents. -/
theorem C1_offset_magnitude_witness :
    hasMagnitude (getRangeBasedOffset ⟨0, 0, 0, 30000, 1, 1⟩)
      (max (2 * maxDim ⟨0, 0, 0, 30000, 1, 1⟩) defaultOffsetMagnitude) ∧
    hasMagnitude (getRangeBasedOffset ⟨0, 0, 0, 0, 0, 0⟩) defaultOffsetMagnitude :=
  ⟨(C1_offset_magnitude ⟨0, 0, 0, 30000, 1, 1⟩).1 (by
      norm_num [maxDim, Range3d.xLength, Range3d.yLength, Range3d.zLength]),
   (C1_offset_magnitude ⟨0, 0, 0, 0, 0, 0⟩).2 (by
      norm_num [maxDim, Range3d.xLength, Range3d.yLength, Range3d.zLength])⟩

/-- C2, as stated by the spec: with no writable briefcase connection, none
of the five button actions mutates external state (in particular no tile
refresh).  Refuted: `requestTiles` checks only the selected model, so with
no briefcase but model `"0x1"` selected it still requests a tile
refresh. -/
theorem C2_counterexample :
    (⟨false, false, ⟨0, 0, 0, 0, 0, 0⟩, fun _ => []⟩ : World).isBriefcase = false ∧
    (requestTiles ⟨none, "", "0x1"⟩
        ⟨false, false, ⟨0, 0, 0, 0, 0, 0⟩, fun _ => []⟩).effects =
      [Effect.refreshTiles ["0x1"]] :=
  ⟨rfl, rfl⟩

/-- C2 (amended): with no writable briefcase connection, the four
briefcase-dependent actions (toggle editing scope, move sample outside,
move sample back, save and refresh) leave the external world unchanged and
perform no external call, changing only the panel's status text; the fifth
action, request tiles, likewise changes no briefcase state and changes
only the status text, but it does still issue a tile-refresh call when a
model is selected (its only possible effects are tile refreshes). -/
theorem C2_no_briefcase (p : PanelState) (w : World) (h : w.isBriefcase = false) :
    inertRun toggleEditingScope p w ∧
    inertRun (moveSample true) p w ∧
    inertRun (moveSample false) p w ∧
    inertRun saveAndRefresh p w ∧
    ((requestTiles p w).world = w ∧ onlyStatusChanged p (requestTiles p w).panel ∧
      ∀ e ∈ (requestTiles p w).effects, ∃ mids, e = Effect.refreshTiles mids) := by
  have hgb : w.getBriefcase = none := by simp [World.getBriefcase, h]
  refine ⟨?_, ?_, ?_, ?_, ?_⟩
  · simp [inertRun, toggleEditingScope, hgb, onlyStatusChanged, setStatus]
  · rw [inertRun, moveSample_eq_err true p w (Or.inl hgb)]
    exact ⟨rfl, rfl, rfl, rfl⟩
  · rw [inertRun, moveSample_eq_err false p w (Or.inl hgb)]
    exact ⟨rfl, rfl, rfl, rfl⟩
  · rw [inertRun, saveAndRefresh_eq_err p w (Or.inl hgb)]
    exact ⟨rfl, rfl, rfl, rfl⟩
  · cases hm : p.selectedModelId with
    | none =>
      rw [requestTiles_eq_none p w hm]
      exact ⟨rfl, ⟨rfl, rfl⟩, by simp⟩
    | some m =>
      rw [requestTiles_eq_some p w m hm]
      refine ⟨rfl, ⟨rfl, rfl⟩, fun e he => ?_⟩
      simp at he
      exact ⟨[m], he⟩

/-- C2 witness: at a concrete no-briefcase world, moving the sample is
inert. -/
theorem C2_no_briefcase_witness :
    (⟨false, true, ⟨0, 0, 0, 0, 0, 0⟩, fun _ => []⟩ : World).isBriefcase = false ∧
    inertRun (moveSample true) ⟨none, "", "0x1"⟩
      ⟨false, true, ⟨0, 0, 0, 0, 0, 0⟩, fun _ => []⟩ :=
  ⟨rfl, (C2_no_briefcase ⟨none, "", "0x1"⟩
    ⟨false, true, ⟨0, 0, 0, 0, 0, 0⟩, fun _ => []⟩ rfl).2.1⟩

/-- C3: on the same panel instance, a `moveSample(true)` followed by a
`moveSample(false)` that both reach the `transformElements` call apply
translations that are exact negations of each other — the first call
caches the offset it used in `_lastOffset`, and the second call reuses the
cache, regardless of how the world (in particular the project extents)
changed in between. -/
theorem C3_move_then_back_negation (p : PanelState) (w1 w2 : World)
    (ids1 ids2 : List String) (t1 t2 : Transform)
    (h1 : Effect.transformEls ids1 t1 ∈ (moveSample true p w1).effects)
    (h2 : Effect.transformEls ids2 t2 ∈
      (moveSample false (moveSample true p w1).panel w2).effects) :
    t2.translation = t1.translation.negate := by
  obtain ⟨off1, hdef1, ht1, hlast1⟩ := moveSample_transform_mem true p w1 ids1 t1 h1
  obtain ⟨off2, hdef2, ht2, hlast2⟩ :=
    moveSample_transform_mem false (moveSample true p w1).panel w2 ids2 t2 h2
  have hoff : off2 = off1 := by rw [hdef2, hlast1]; rfl
  rw [ht1, ht2, hoff]
  simp [Transform.createTranslation]

/-- C3 witness: a concrete outside-then-back pair whose translations are
`(50000, 0, 0)` and `(-50000, 0, 0)`. -/
theorem C3_move_then_back_negation_witness :
    (Transform.createTranslation (Vector3d.create (-50000) 0 0)).translation =
      (Transform.createTranslation (Vector3d.create 50000 0 0)).translation.negate := by
  have hoff : getRangeBasedOffset ⟨0, 0, 0, 0, 0, 0⟩ = Vector3d.create 50000 0 0 := by
    rw [getRangeBasedOffset, if_pos]
    · rfl
    · norm_num [maxDim, Range3d.xLength, Range3d.yLength, Range3d.zLength]
  have hq1 : getSampleElementIds
      (scopeEntered ⟨true, true, ⟨0, 0, 0, 0, 0, 0⟩, fun _ => [⟨some "0xa"⟩]⟩).1 "0x1" =
        ["0xa"] := by
    simp [getSampleElementIds, scopeEntered]
  have run1 : moveSample true ⟨none, "", "0x1"⟩
      ⟨true, true, ⟨0, 0, 0, 0, 0, 0⟩, fun _ => [⟨some "0xa"⟩]⟩ =
      ⟨⟨some (Vector3d.create 50000 0 0),
        "Moved sample geometry beyond the project extents while editing.", "0x1"⟩,
       ⟨true, true, ⟨0, 0, 0, 0, 0, 0⟩, fun _ => [⟨some "0xa"⟩]⟩,
       [Effect.transformEls ["0xa"]
         (Transform.createTranslation (Vector3d.create 50000 0 0))]⟩ := by
    rw [moveSample_eq_success true ⟨none, "", "0x1"⟩
      ⟨true, true, ⟨0, 0, 0, 0, 0, 0⟩, fun _ => [⟨some "0xa"⟩]⟩ "0x1" rfl rfl
      (by rw [hq1]; simp)]
    simp [setStatus, scopeEntered, getOffset, hoff, getSampleElementIds]
  have run2 : moveSample false
      ⟨some (Vector3d.create 50000 0 0),
        "Moved sample geometry beyond the project extents while editing.", "0x1"⟩
      ⟨true, true, ⟨0, 0, 0, 0, 0, 0⟩, fun _ => [⟨some "0xa"⟩]⟩ =
      ⟨⟨some (Vector3d.create 50000 0 0),
        "Moved sample geometry back within the project extents without saving.", "0x1"⟩,
       ⟨true, true, ⟨0, 0, 0, 0, 0, 0⟩, fun _ => [⟨some "0xa"⟩]⟩,
       [Effect.transformEls ["0xa"]
         (Transform.createTranslation (Vector3d.create (-50000) 0 0))]⟩ := by
    rw [moveSample_eq_success false
      ⟨some (Vector3d.create 50000 0 0),
        "Moved sample geometry beyond the project extents while editing.", "0x1"⟩
      ⟨true, true, ⟨0, 0, 0, 0, 0, 0⟩, fun _ => [⟨some "0xa"⟩]⟩ "0x1" rfl rfl
      (by rw [hq1]; simp)]
    simp [setStatus, scopeEntered, getSampleElementIds, Vector3d.negate,
      Vector3d.create, Transform.createTranslation]
  exact C3_move_then_back_negation ⟨none, "", "0x1"⟩
    ⟨true, true, ⟨0, 0, 0, 0, 0, 0⟩, fun _ => [⟨some "0xa"⟩]⟩
    ⟨true, true, ⟨0, 0, 0, 0, 0, 0⟩, fun _ => [⟨some "0xa"⟩]⟩
    ["0xa"] ["0xa"]
    (Transform.createTranslation (Vector3d.create 50000 0 0))
    (Transform.createTranslation (Vector3d.create (-50000) 0 0))
    (by rw [run1]; simp)
    (by rw [run1, run2]; simp)

/-- C4: when the element query for the selected model yields no
identifiers, `moveSample` (either direction) sets the no-elements status
and performs no `transformElements` call. -/
theorem C4_no_elements (o : Bool) (p : PanelState) (w : World) (m : String)
    (hb : w.isBriefcase = true) (hm : p.selectedModelId = some m)
    (hq : getSampleElementIds (scopeEntered w).1 m = []) :
    (moveSample o p w).panel.status =
      "No geometric elements were found in the selected model." ∧
    ∀ ids t, Effect.transformEls ids t ∉ (moveSample o p w).effects := by
  rw [moveSample_eq_empty o p w m hb hm hq]
  refine ⟨rfl, fun ids t hmem => ?_⟩
  rcases scopeEntered_snd w with h2 | h2 <;> rw [h2] at hmem <;> simp at hmem

/-- C4 witness: a concrete model with no geometric elements. -/
theorem C4_no_elements_witness :
    (moveSample true ⟨none, "", "0x1"⟩
        ⟨true, true, ⟨0, 0, 0, 1, 1, 1⟩, fun _ => []⟩).panel.status =
      "No geometric elements were found in the selected model." ∧
    ∀ ids t, Effect.transformEls ids t ∉
      (moveSample true ⟨none, "", "0x1"⟩
        ⟨true, true, ⟨0, 0, 0, 1, 1, 1⟩, fun _ => []⟩).effects :=
  C4_no_elements true ⟨none, "", "0x1"⟩
    ⟨true, true, ⟨0, 0, 0, 1, 1, 1⟩, fun _ => []⟩ "0x1" rfl rfl rfl

/-- C5: `toggleEditingScope` with no writable briefcase only sets a status
message; with one, it exits an active scope or enters a new one, and the
status text reports the resulting scope state. -/
theorem C5_toggleEditingScope (p : PanelState) (w : World) :
    (w.isBriefcase = false →
      toggleEditingScope p w =
        ⟨setStatus p "Editing scope requires a writable briefcase.", w, []⟩) ∧
    (w.isBriefcase = true → w.editingScope = true →
      toggleEditingScope p w =
        ⟨setStatus p "Editing scope ended.",
         { w with editingScope := false }, [Effect.exitScope]⟩) ∧
    (w.isBriefcase = true → w.editingScope = false →
      toggleEditingScope p w =
        ⟨setStatus p "Editing scope is active.",
         { w with editingScope := true }, [Effect.enterScope]⟩) := by
  refine ⟨fun h1 => ?_, fun h1 h2 => ?_, fun h1 h2 => ?_⟩ <;>
    simp [toggleEditingScope, World.getBriefcase, h1, *]

/-- C5 witness: entering a scope on a concrete briefcase world with no
active scope. -/
theorem C5_toggleEditingScope_witness :
    toggleEditingScope ⟨none, "", ""⟩ ⟨true, false, ⟨0, 0, 0, 0, 0, 0⟩, fun _ => []⟩ =
      ⟨setStatus ⟨none, "", ""⟩ "Editing scope is active.",
       { (⟨true, false, ⟨0, 0, 0, 0, 0, 0⟩, fun _ => []⟩ : World) with editingScope := true },
       [Effect.enterScope]⟩ :=
  (C5_toggleEditingScope ⟨none, "", ""⟩
    ⟨true, false, ⟨0, 0, 0, 0, 0, 0⟩, fun _ => []⟩).2.2 rfl rfl

/-- C6: `moveSample` with a missing briefcase or missing model selection
sets the error status and returns with the world untouched and no
external call; with both present and no active editing scope, its first
external call enters an editing scope and the scope is active
afterwards. -/
theorem C6_preconditions_and_scope (o : Bool) (p : PanelState) (w : World) :
    ((w.isBriefcase = false ∨ p.selectedModelId = none) →
      moveSample o p w =
        ⟨setStatus p "Select a model and ensure the iModel is writable.", w, []⟩) ∧
    (∀ m, w.isBriefcase = true → p.selectedModelId = some m → w.editingScope = false →
      (moveSample o p w).effects.head? = some Effect.enterScope ∧
      (moveSample o p w).world.editingScope = true) := by
  constructor
  · intro h
    refine moveSample_eq_err o p w ?_
    rcases h with h | h
    · exact Or.inl (by simp [World.getBriefcase, h])
    · exact Or.inr h
  · intro m hb hm hs
    have h1 := scopeEntered_inactive w hs
    by_cases hq : getSampleElementIds (scopeEntered w).1 m = []
    · rw [moveSample_eq_empty o p w m hb hm hq]
      simp [h1]
    · rw [moveSample_eq_success o p w m hb hm hq]
      simp [h1]

/-- C6 witness: both branches at concrete inputs — missing model on a
briefcase world, and implicit scope entry. -/
theorem C6_preconditions_and_scope_witness :
    (moveSample true ⟨none, "", ""⟩ ⟨true, false, ⟨0, 0, 0, 0, 0, 0⟩, fun _ => []⟩ =
      ⟨setStatus ⟨none, "", ""⟩ "Select a model and ensure the iModel is writable.",
       ⟨true, false, ⟨0, 0, 0, 0, 0, 0⟩, fun _ => []⟩, []⟩) ∧
    ((moveSample true ⟨none, "", "0x1"⟩
        ⟨true, false, ⟨0, 0, 0, 0, 0, 0⟩, fun _ => []⟩).effects.head? =
          some Effect.enterScope ∧
      (moveSample true ⟨none, "", "0x1"⟩
        ⟨true, false, ⟨0, 0, 0, 0, 0, 0⟩, fun _ => []⟩).world.editingScope = true) :=
  ⟨(C6_preconditions_and_scope true ⟨none, "", ""⟩
      ⟨true, false, ⟨0, 0, 0, 0, 0, 0⟩, fun _ => []⟩).1 (Or.inr rfl),
   (C6_preconditions_and_scope true ⟨none, "", "0x1"⟩
      ⟨true, false, ⟨0, 0, 0, 0, 0, 0⟩, fun _ => []⟩).2 "0x1" rfl rfl rfl⟩

/-- C7: `saveAndRefresh` with both a briefcase and a selected model first
saves with the fixed description `"Project extents tile example"`, then
refreshes tiles for exactly that model, then reports completion in the
status; absent either precondition it sets the error status and performs
neither call. -/
theorem C7_saveAndRefresh (p : PanelState) (w : World) :
    (∀ m, w.isBriefcase = true → p.selectedModelId = some m →
      saveAndRefresh p w =
        ⟨setStatus p
          "Saved the briefcase and refreshed tiles. Geometry outside project extents will stop requesting tiles.",
         w,
         [Effect.saveChanges "Project extents tile example",
          Effect.refreshTiles [m]]⟩) ∧
    ((w.isBriefcase = false ∨ p.selectedModelId = none) →
      saveAndRefresh p w =
        ⟨setStatus p "Select a model and ensure the iModel is writable.", w, []⟩) := by
  constructor
  · exact fun m hb hm => saveAndRefresh_eq_ok p w m hb hm
  · intro h
    refine saveAndRefresh_eq_err p w ?_
    rcases h with h | h
    · exact Or.inl (by simp [World.getBriefcase, h])
    · exact Or.inr h

/-- C7 witness: the save-then-refresh effect sequence at a concrete
briefcase world with model `"0x1"` selected. -/
theorem C7_saveAndRefresh_witness :
    saveAndRefresh ⟨none, "", "0x1"⟩ ⟨true, false, ⟨0, 0, 0, 0, 0, 0⟩, fun _ => []⟩ =
      ⟨setStatus ⟨none, "", "0x1"⟩
        "Saved the briefcase and refreshed tiles. Geometry outside project extents will stop requesting tiles.",
       ⟨true, false, ⟨0, 0, 0, 0, 0, 0⟩, fun _ => []⟩,
       [Effect.saveChanges "Project extents tile example",
        Effect.refreshTiles ["0x1"]]⟩ :=
  (C7_saveAndRefresh ⟨none, "", "0x1"⟩
    ⟨true, false, ⟨0, 0, 0, 0, 0, 0⟩, fun _ => []⟩).1 "0x1" rfl rfl

/-- C8: every translation `moveSample` applies lies on the x-axis — the
default offset and every range-based offset have zero y and z components,
the x-axis property of the cached `_lastOffset` is preserved, and every
`transformElements` call made displaces nothing in y or z. -/
theorem C8_translations_on_x_axis (o : Bool) (p : PanelState) (w : World)
    (hp : ∀ v, p.lastOffset = some v → v.onXAxis) :
    defaultOffset.onXAxis ∧
    (∀ e, (getRangeBasedOffset e).onXAxis) ∧
    (∀ v, (moveSample o p w).panel.lastOffset = some v → v.onXAxis) ∧
    (∀ ids t, Effect.transformEls ids t ∈ (moveSample o p w).effects →
      t.translation.y = 0 ∧ t.translation.z = 0) := by
  have hoffAx : ∀ v, v = p.lastOffset.getD (getOffset (scopeEntered w).1) → v.onXAxis := by
    intro v hv
    cases ho : p.lastOffset with
    | none => rw [hv, ho]; exact getRangeBasedOffset_onXAxis _
    | some u => rw [hv, ho]; exact hp u ho
  refine ⟨⟨rfl, rfl⟩, getRangeBasedOffset_onXAxis, ?_, ?_⟩
  · intro v hv
    cases hb : w.isBriefcase
    · rw [moveSample_eq_err o p w (Or.inl (by simp [World.getBriefcase, hb]))] at hv
      exact hp v hv
    · cases hm : p.selectedModelId with
      | none =>
        rw [moveSample_eq_err o p w (Or.inr hm)] at hv
        exact hp v hv
      | some m =>
        by_cases hq : getSampleElementIds (scopeEntered w).1 m = []
        · rw [moveSample_eq_empty o p w m hb hm hq] at hv
          exact hp v hv
        · rw [moveSample_eq_success o p w m hb hm hq] at hv
          simp [setStatus] at hv
          exact hoffAx v hv.symm
  · intro ids t hmem
    obtain ⟨off, hdef, ht, _⟩ := moveSample_transform_mem o p w ids t hmem
    have hax : off.onXAxis := hoffAx off hdef
    have hax2 : (if o then off else off.negate).onXAxis := by
      cases o
      · simpa using negate_onXAxis off hax
      · simpa using hax
    rw [ht]
    exact ⟨hax2.1, hax2.2⟩

/-- C8 witness: the translation applied by a concrete fresh-panel move has
zero y and z components. -/
theorem C8_translations_on_x_axis_witness :
    (Transform.createTranslation (Vector3d.create 50000 0 0)).translation.y = 0 ∧
    (Transform.createTranslation (Vector3d.create 50000 0 0)).translation.z = 0 := by
  have hoff : getRangeBasedOffset ⟨0, 0, 0, 0, 0, 0⟩ = Vector3d.create 50000 0 0 := by
    rw [getRangeBasedOffset, if_pos]
    · rfl
    · norm_num [maxDim, Range3d.xLength, Range3d.yLength, Range3d.zLength]
  have hmem : Effect.transformEls ["0xa"]
      (Transform.createTranslation (Vector3d.create 50000 0 0)) ∈
      (moveSample true ⟨none, "", "0x1"⟩
        ⟨true, true, ⟨0, 0, 0, 0, 0, 0⟩, fun _ => [⟨some "0xa"⟩]⟩).effects := by
    rw [moveSample_eq_success true ⟨none, "", "0x1"⟩
      ⟨true, true, ⟨0, 0, 0, 0, 0, 0⟩, fun _ => [⟨some "0xa"⟩]⟩ "0x1" rfl rfl
      (by simp [getSampleElementIds, scopeEntered])]
    simp [scopeEntered, getSampleElementIds, getOffset, hoff]
  exact (C8_translations_on_x_axis true ⟨none, "", "0x1"⟩
    ⟨true, true, ⟨0, 0, 0, 0, 0, 0⟩, fun _ => [⟨some "0xa"⟩]⟩
    (fun v hv => by simp at hv)).2.2.2 ["0xa"]
    (Transform.createTranslation (Vector3d.create 50000 0 0)) hmem

/-- C9: with a briefcase, a selected model and no active editing scope,
`moveSample` first enters an editing scope; if the element query then
yields nothing, the handler returns early with the no-elements status and
the newly entered scope still active (the scope entry is not undone). -/
theorem C9_scope_survives_early_return (o : Bool) (p : PanelState) (w : World) (m : String)
    (hb : w.isBriefcase = true) (hm : p.selectedModelId = some m)
    (hs : w.editingScope = false)
    (hq : getSampleElementIds { w with editingScope := true } m = []) :
    moveSample o p w =
      ⟨setStatus p "No geometric elements were found in the selected model.",
       { w with editingScope := true }, [Effect.enterScope]⟩ := by
  have h1 := scopeEntered_inactive w hs
  have hq2 : getSampleElementIds (scopeEntered w).1 m = [] := by rw [h1]; exact hq
  rw [moveSample_eq_empty o p w m hb hm hq2, h1]

/-- C9 witness: the early return at a concrete element-free model leaves
the entered scope active. -/
theorem C9_scope_survives_early_return_witness :
    moveSample false ⟨none, "", "0x2"⟩
        ⟨true, false, ⟨0, 0, 0, 0, 0, 0⟩, fun _ => []⟩ =
      ⟨setStatus ⟨none, "", "0x2"⟩ "No geometric elements were found in the selected model.",
       { (⟨true, false, ⟨0, 0, 0, 0, 0, 0⟩, fun _ => []⟩ : World) with editingScope := true },
       [Effect.enterScope]⟩ :=
  C9_scope_survives_early_return false ⟨none, "", "0x2"⟩
    ⟨true, false, ⟨0, 0, 0, 0, 0, 0⟩, fun _ => []⟩ "0x2" rfl rfl rfl rfl

/-- C10: when the model list is empty, the rebuilt select's value is the
empty string and `selectedModelId` is `undefined`, so `moveSample` (both
directions), `saveAndRefresh` and `requestTiles` each set their
precondition-failure status and make no external call, leaving the world
untouched. -/
theorem C10_empty_model_list (p : PanelState) (w : World) (current : String)
    (h : p.modelSelectValue = populateModels [] current) :
    p.modelSelectValue = "" ∧ p.selectedModelId = none ∧
    moveSample true p w =
      ⟨setStatus p "Select a model and ensure the iModel is writable.", w, []⟩ ∧
    moveSample false p w =
      ⟨setStatus p "Select a model and ensure the iModel is writable.", w, []⟩ ∧
    saveAndRefresh p w =
      ⟨setStatus p "Select a model and ensure the iModel is writable.", w, []⟩ ∧
    requestTiles p w =
      ⟨setStatus p "Select a model before requesting tiles.", w, []⟩ := by
  have hval : p.modelSelectValue = "" := h.trans (populateModels_nil current)
  have hsel : p.selectedModelId = none := by
    simp [PanelState.selectedModelId, hval]
  exact ⟨hval, hsel,
    moveSample_eq_err true p w (Or.inr hsel),
    moveSample_eq_err false p w (Or.inr hsel),
    saveAndRefresh_eq_err p w (Or.inr hsel),
    requestTiles_eq_none p w hsel⟩

/-- C10 witness: a concrete panel rebuilt from an empty model list. -/
theorem C10_empty_model_list_witness :
    (⟨none, "", populateModels [] "0x9"⟩ : PanelState).selectedModelId = none ∧
    requestTiles ⟨none, "", populateModels [] "0x9"⟩
        ⟨true, false, ⟨0, 0, 0, 0, 0, 0⟩, fun _ => []⟩ =
      ⟨setStatus ⟨none, "", populateModels [] "0x9"⟩ "Select a model before requesting tiles.",
       ⟨true, false, ⟨0, 0, 0, 0, 0, 0⟩, fun _ => []⟩, []⟩ :=
  ⟨(C10_empty_model_list ⟨none, "", populateModels [] "0x9"⟩
      ⟨true, false, ⟨0, 0, 0, 0, 0, 0⟩, fun _ => []⟩ "0x9" rfl).2.1,
   (C10_empty_model_list ⟨none, "", populateModels [] "0x9"⟩
      ⟨true, false, ⟨0, 0, 0, 0, 0, 0⟩, fun _ => []⟩ "0x9" rfl).2.2.2.2.2⟩

end ProjectExtents
